import Mathlib

set_option linter.unusedVariables false

/-!
Verification of the attention-backend selection and packed-batch execution
layer of the encode-only serving pipeline
(`vllm/wde/encode_only/layers/attention/`).

The shallow embedding translates the Python sources:
  * `selector.py`: the `_Backend` enumeration, `backend_name_to_enum`,
    `AttnBackend.which_attn_to_use` and `AttnBackend.from_engine`;
  * `backends/flash_attn.py`: `EncodeOnlyFlashAttentionBackend`,
    `EncodeOnlyFlashAttentionImpl.__init__` (called `construct` below) and
    `EncodeOnlyFlashAttentionImpl.forward`.

Implicit process-wide inputs of the Python code (the
`VLLM_ATTENTION_BACKEND` environment variable and
`current_platform.get_device_capability()[0]`) are threaded as explicit
arguments.  Fallible Python code (raise / assert) is modelled with
`Except`; Python floats that are only stored and compared for equality are
modelled as rationals.
-/

/-- The `torch.dtype` tags relevant to the selector: the code only
distinguishes `float16` / `bfloat16` from everything else. -/
inductive Dtype
  | float16
  | bfloat16
  | float32
  | float64
  deriving DecidableEq

/-- The `_Backend` enumeration of `selector.py` (eight members). -/
inductive Backend
  | FLASH_ATTN
  | XFORMERS
  | ROCM_FLASH
  | TORCH_SDPA
  | OPENVINO
  | FLASHINFER
  | PALLAS
  | IPEX
  deriving DecidableEq

/-- Names in `_Backend.__members__`, in declaration order. -/
def backendMembers : List String :=
  ["FLASH_ATTN", "XFORMERS", "ROCM_FLASH", "TORCH_SDPA", "OPENVINO",
   "FLASHINFER", "PALLAS", "IPEX"]

/-- The name of each `_Backend` member (`member.name` in Python). -/
def Backend.name : Backend → String
  | .FLASH_ATTN => "FLASH_ATTN"
  | .XFORMERS => "XFORMERS"
  | .ROCM_FLASH => "ROCM_FLASH"
  | .TORCH_SDPA => "TORCH_SDPA"
  | .OPENVINO => "OPENVINO"
  | .FLASHINFER => "FLASHINFER"
  | .PALLAS => "PALLAS"
  | .IPEX => "IPEX"

/-- Membership test `backend_name in _Backend.__members__` together with
the lookup `_Backend[backend_name]` (case-sensitive string match). -/
def backendOfName (s : String) : Option Backend :=
  if s = "FLASH_ATTN" then some .FLASH_ATTN
  else if s = "XFORMERS" then some .XFORMERS
  else if s = "ROCM_FLASH" then some .ROCM_FLASH
  else if s = "TORCH_SDPA" then some .TORCH_SDPA
  else if s = "OPENVINO" then some .OPENVINO
  else if s = "FLASHINFER" then some .FLASHINFER
  else if s = "PALLAS" then some .PALLAS
  else if s = "IPEX" then some .IPEX
  else none

/-- Errors raised by `selector.py`: the `ValueError` of
`backend_name_to_enum` carries the offending name and the list of
available backends printed in its message. -/
inductive SelectorError
  | invalidBackendName (name : String) (available : List String)
  deriving DecidableEq

/-- Embedding of `_Backend.backend_name_to_enum` (`selector.py` lines
22-33): raises
`ValueError` listing the available backends when the name is not a member,
otherwise returns the member. -/
def backend_name_to_enum (backend_name : String) : Except SelectorError Backend :=
  match backendOfName backend_name with
  | some b => .ok b
  | none => .error (.invalidBackendName backend_name backendMembers)

/-- Embedding of `AttnBackend.which_attn_to_use` (`selector.py` lines
65-98).  The
environment variable `envs.VLLM_ATTENTION_BACKEND` and the device
capability major version `current_platform.get_device_capability()[0]`
are explicit arguments.  `num_heads`, `head_size` and `num_kv_heads` are
accepted (as in the source) but do not influence the decision. -/
def which_attn_to_use (num_heads head_size num_kv_heads : Nat)
    (sliding_window : Option Nat) (dtype : Dtype)
    (backend_by_env_var : Option String) (device_capability_major : Nat) :
    Except SelectorError Backend :=
  -- Default case.
  let selected_backend : Backend := .FLASH_ATTN
  let parsed : Except SelectorError Backend :=
    match backend_by_env_var with
    | none => .ok selected_backend
    | some s => backend_name_to_enum s
  match parsed with
  | .error e => .error e
  | .ok selected_backend =>
    -- FlashAttn in NVIDIA GPUs.
    if selected_backend = .FLASH_ATTN then
      if device_capability_major < 8 then
        -- Volta and Turing NVIDIA GPUs.
        .ok .XFORMERS
      else if ¬ (dtype = .float16 ∨ dtype = .bfloat16) then
        .ok .XFORMERS
      else if sliding_window ≠ none then
        .ok .XFORMERS
      else
        .ok selected_backend
    else
      .ok selected_backend

/-- The two backend classes `from_engine` can return; the modules they are
imported from are external to this layer. -/
inductive ResolvedBackendClass
  | encodeOnlyFlashAttentionBackend
  | encodeOnlyTorchSDPABackend
  deriving DecidableEq

/-- The `ValueError("Invalid attention backend.")` of `from_engine`. -/
inductive ResolveError
  | invalidAttentionBackend
  deriving DecidableEq

/-- The dispatch on the selected backend in `AttnBackend.from_engine`
(`selector.py` lines 50-63).  The `FLASH_ATTN` branch returns the flash
backend class; the `XFORMERS` branch logs and then does `pass`, so the
Python function falls off the end and returns `None` (modelled `.ok none`);
the `TORCH_SDPA` branch returns the SDPA backend class; every other value
raises `ValueError`. -/
def resolve_backend (backend : Backend) :
    Except ResolveError (Option ResolvedBackendClass) :=
  if backend = .FLASH_ATTN then
    .ok (some .encodeOnlyFlashAttentionBackend)
  else if backend = .XFORMERS then
    .ok none
  else if backend = .TORCH_SDPA then
    .ok (some .encodeOnlyTorchSDPABackend)
  else
    .error .invalidAttentionBackend

/-- Embedding of `EncodeOnlyFlashAttentionBackend.get_supported_head_sizes`
(`flash_attn.py` lines 14-16). -/
def get_supported_head_sizes : List Nat :=
  [32, 64, 96, 128, 160, 192, 224, 256]

/-- Embedding of `EncodeOnlyFlashAttentionBackend.get_name`
(`flash_attn.py` lines 18-20). -/
def get_name : String := "flash_attn"

/-- Failures of `EncodeOnlyFlashAttentionImpl.__init__`:
  * `unsupportedFeatureBlockSparse`: the `ValueError` for block-sparse
    parameters (line 58-60);
  * `unsupportedFeatureSlidingWindow`: the `ValueError` for a sliding
    window (lines 82-86);
  * `unsupportedHeadSize`: the `ValueError` for an unsupported head size,
    whose message names the offending size and the supported list
    (lines 90-93);
  * `assertionFailed`: the `assert num_heads % num_kv_heads == 0`
    (line 79);
  * `zeroDivisionError`: Python's `%` by zero when `num_kv_heads = 0`. -/
inductive ConstructError
  | unsupportedFeatureBlockSparse
  | unsupportedFeatureSlidingWindow
  | unsupportedHeadSize (head_size : Nat) (supported : List Nat)
  | assertionFailed
  | zeroDivisionError
  deriving DecidableEq

/-- The state of a successfully constructed
`EncodeOnlyFlashAttentionImpl` (the fields set by `__init__`). -/
structure EncodeOnlyFlashAttentionImpl where
  num_heads : Nat
  head_size : Nat
  scale : ℚ
  num_kv_heads : Nat
  alibi_slopes : Option (List ℚ)
  sliding_window : Int × Int
  logits_soft_cap : ℚ
  num_queries_per_kv : Nat
  deriving DecidableEq

/-- Embedding of `EncodeOnlyFlashAttentionImpl.__init__` (`flash_attn.py`
lines 47-93),
with the checks in source order: block-sparse `ValueError`, field
normalization (`sliding_window` pair, `logits_soft_cap` zero default), the
divisibility assert, the sliding-window `ValueError`, the head-size
`ValueError`.  `blocksparse_params` is modelled by whether it was supplied
(only its `is not None` test matters). -/
def construct (num_heads head_size : Nat) (scale : ℚ) (num_kv_heads : Nat)
    (alibi_slopes : Option (List ℚ)) (sliding_window : Option Nat)
    (blocksparse_params : Option Unit) (logits_soft_cap : Option ℚ) :
    Except ConstructError EncodeOnlyFlashAttentionImpl :=
  if blocksparse_params ≠ none then
    .error .unsupportedFeatureBlockSparse
  else
    let sliding_window_pair : Int × Int :=
      match sliding_window with
      | some w => ((w : Int), (w : Int))
      | none => (-1, -1)
    -- In flash-attn, setting logits_soft_cap as 0 means no soft cap.
    let soft_cap : ℚ := match logits_soft_cap with
      | none => 0
      | some c => c
    if num_kv_heads = 0 then
      .error .zeroDivisionError
    else if ¬ num_heads % num_kv_heads = 0 then
      .error .assertionFailed
    else if sliding_window ≠ none then
      .error .unsupportedFeatureSlidingWindow
    else if head_size ∉ get_supported_head_sizes then
      .error (.unsupportedHeadSize head_size get_supported_head_sizes)
    else
      .ok { num_heads := num_heads
            head_size := head_size
            scale := scale
            num_kv_heads := num_kv_heads
            alibi_slopes := alibi_slopes
            sliding_window := sliding_window_pair
            logits_soft_cap := soft_cap
            num_queries_per_kv := num_heads / num_kv_heads }

/-- The attention modes of the forward contract (`AttentionType` is
declared in `core/layers/attention/abstract.py`, outside the given
sources; the spec contract lists the modes ENCODER, DECODER_SELF and
CROSS, and `forward` only tests equality with ENCODER). -/
inductive AttentionType
  | ENCODER
  | DECODER_SELF
  | CROSS
  deriving DecidableEq

/-- Failures of `EncodeOnlyFlashAttentionImpl.forward`:
  * `unsupportedMode`: the `NotImplementedError` for non-encoder modes
    (lines 115-119);
  * `unsupportedQuantization`: the `assert k_scale == 1.0 and
    v_scale == 1.0` (lines 122-123). -/
inductive ForwardError
  | unsupportedMode (mode : AttentionType)
  | unsupportedQuantization
  deriving DecidableEq

/-- A packed 2-D buffer, abstracted to its shape
`[num_tokens, hidden_size]`; the numeric payload plays no role in any
validated property. -/
structure PackedTensor where
  num_tokens : Nat
  hidden_size : Nat
  deriving DecidableEq

/-- Embedding of `EncodeOnlyFlashAttentionMetadata`: the fields `forward`
reads
(`seq_start_loc`, `max_seq_len`). -/
structure EncodeOnlyFlashAttentionMetadata where
  seq_start_loc : List Nat
  max_seq_len : Nat
  deriving DecidableEq

/-- The argument record of the single `flash_attn_varlen_func` call in
`forward` (`flash_attn.py` lines 131-144). -/
structure KernelCall where
  cu_seqlens_q : List Nat
  cu_seqlens_k : List Nat
  max_seqlen_q : Nat
  max_seqlen_k : Nat
  softmax_scale : ℚ
  causal : Bool
  window_size : Int × Int
  alibi_slopes : Option (List ℚ)
  softcap : ℚ
  deriving DecidableEq

/-- What a successful `forward` does: it invokes the kernel once with
`kernel_call` and returns the kernel output reshaped back to the query's
flat shape. -/
structure ForwardResult where
  kernel_call : KernelCall
  output : PackedTensor
  deriving DecidableEq

/-- Embedding of `EncodeOnlyFlashAttentionImpl.forward` (`flash_attn.py`
lines
95-147): the mode check, the scale assert, then the
`flash_attn_varlen_func` invocation with both `cu_seqlens` equal to the
metadata's `seq_start_loc`, `causal=False`, the stored window pair, alibi
slopes and soft cap, and the output reshaped to the query's shape. -/
def EncodeOnlyFlashAttentionImpl.forward
    (self : EncodeOnlyFlashAttentionImpl)
    (query key value : PackedTensor)
    (attn_metadata : EncodeOnlyFlashAttentionMetadata)
    (k_scale v_scale : ℚ) (attn_type : AttentionType) :
    Except ForwardError ForwardResult :=
  if attn_type ≠ .ENCODER then
    .error (.unsupportedMode attn_type)
  else if ¬ (k_scale = 1 ∧ v_scale = 1) then
    .error .unsupportedQuantization
  else
    .ok { kernel_call :=
            { cu_seqlens_q := attn_metadata.seq_start_loc
              cu_seqlens_k := attn_metadata.seq_start_loc
              max_seqlen_q := attn_metadata.max_seq_len
              max_seqlen_k := attn_metadata.max_seq_len
              softmax_scale := self.scale
              causal := false
              window_size := self.sliding_window
              alibi_slopes := self.alibi_slopes
              softcap := self.logits_soft_cap }
          output := { num_tokens := query.num_tokens
                      hidden_size := query.hidden_size } }

/-- Modelled from the spec: the metadata-builder `build` logic lives in
`EncodeOnlyAttentionMetadataBuilder`
(`vllm/wde/encode_only/layers/attention/backends/abstract.py`), which is
not among the given sources (`EncodeOnlyFlashAttentionMetadataBuilder`
only subclasses it with `pass`).  Spec 4.3: computes prefix-sum offsets
starting at 0; `maxSeqLen` = max of inputs (0 if empty). -/
def build (seq_lens : List Nat) : EncodeOnlyFlashAttentionMetadata :=
  { seq_start_loc := seq_lens.scanl (· + ·) 0
    max_seq_len := seq_lens.foldr max 0 }

/-- C1: with no environment override, `which_attn_to_use` returns
FLASH_ATTN exactly when the device capability major version is at least 8,
the dtype is float16 or bfloat16 and no sliding window is set, and returns
XFORMERS in every other case (for all head counts and sizes). -/
theorem which_attn_no_override (num_heads head_size num_kv_heads : Nat)
    (sliding_window : Option Nat) (dtype : Dtype) (cap : Nat) :
    which_attn_to_use num_heads head_size num_kv_heads sliding_window dtype
        none cap =
      Except.ok
        (if 8 ≤ cap ∧ (dtype = .float16 ∨ dtype = .bfloat16) ∧
            sliding_window = none
          then Backend.FLASH_ATTN else Backend.XFORMERS) := by
  unfold which_attn_to_use
  rcases sliding_window with _ | w <;> cases dtype <;>
    rcases Nat.lt_or_ge cap 8 with h | h <;>
      simp [h, Nat.not_le.mpr h, Nat.not_lt.mpr h]

/-- C2 counterexample: an environment override of "FLASH_ATTN" does not
short-circuit the downgrade rules; on a capability-7 device with float16
and no sliding window, `which_attn_to_use` with that override returns
XFORMERS, not the override backend. -/
theorem which_attn_override_flash_attn_not_honored :
    which_attn_to_use 8 64 8 none .float16 (some "FLASH_ATTN") 7 =
        Except.ok Backend.XFORMERS ∧
      which_attn_to_use 8 64 8 none .float16 (some "FLASH_ATTN") 7 ≠
        Except.ok Backend.FLASH_ATTN := by
  refine ⟨rfl, fun h => ?_⟩
  rw [show which_attn_to_use 8 64 8 none .float16 (some "FLASH_ATTN") 7 =
      Except.ok Backend.XFORMERS from rfl] at h
  exact Backend.noConfusion (Except.ok.inj h)

/-- C2 amended: a parsed environment override other than FLASH_ATTN is
returned exactly as given, with the capability / dtype / sliding-window
downgrade rules not applied; an override of FLASH_ATTN instead re-enters
those downgrade rules like the default candidate. -/
theorem which_attn_override_short_circuits
    (num_heads head_size num_kv_heads : Nat) (sliding_window : Option Nat)
    (dtype : Dtype) (cap : Nat) (s : String) (b : Backend)
    (hparse : backend_name_to_enum s = .ok b) (hb : b ≠ .FLASH_ATTN) :
    which_attn_to_use num_heads head_size num_kv_heads sliding_window dtype
        (some s) cap =
      Except.ok b := by
  unfold which_attn_to_use
  dsimp only
  rw [hparse]
  simp [hb]

/-- Witness for the amended C2: the override "TORCH_SDPA" is returned
even though every downgrade condition holds (capability 7, float32 dtype,
sliding window set). -/
theorem which_attn_override_short_circuits_witness :
    backend_name_to_enum "TORCH_SDPA" = .ok Backend.TORCH_SDPA ∧
      Backend.TORCH_SDPA ≠ Backend.FLASH_ATTN ∧
      which_attn_to_use 8 64 8 (some 128) .float32 (some "TORCH_SDPA") 7 =
        Except.ok Backend.TORCH_SDPA :=
  ⟨rfl, by decide,
    which_attn_override_short_circuits 8 64 8 (some 128) .float32 7
      "TORCH_SDPA" Backend.TORCH_SDPA rfl (by decide)⟩

/-- C3: resolving XFORMERS — a backend `which_attn_to_use` returns on
every downgrade — does not fail with any error naming the backend: the
`from_engine` dispatch silently falls through and returns `None`. -/
theorem resolve_backend_xformers_silently_none :
    resolve_backend .XFORMERS = .ok none ∧
      ∀ e : ResolveError, resolve_backend .XFORMERS ≠ .error e := by
  refine ⟨rfl, fun e h => ?_⟩
  rw [show resolve_backend .XFORMERS = .ok none from rfl] at h
  exact Except.noConfusion h

/-- C10: mapping every `_Backend` member's name through
`backend_name_to_enum` returns that member, and every string that is not
one of the eight member names is rejected with an error listing the
available backends. -/
theorem backend_name_to_enum_roundtrip :
    (∀ b : Backend, backend_name_to_enum b.name = Except.ok b) ∧
      ∀ s : String, s ∉ backendMembers →
        backend_name_to_enum s =
          Except.error (SelectorError.invalidBackendName s backendMembers) := by
  constructor
  · intro b
    cases b <;> rfl
  · intro s hs
    simp only [backendMembers, List.mem_cons, List.not_mem_nil, or_false,
      not_or] at hs
    obtain ⟨h1, h2, h3, h4, h5, h6, h7, h8⟩ := hs
    simp [backend_name_to_enum, backendOfName, h1, h2, h3, h4, h5, h6, h7, h8]

/-- Witness for C10 at a concrete unrecognized name: the lower-case
"flash_attn" is rejected (the match is case-sensitive). -/
theorem backend_name_to_enum_roundtrip_witness :
    backend_name_to_enum "flash_attn" =
      Except.error (SelectorError.invalidBackendName "flash_attn"
        backendMembers) :=
  backend_name_to_enum_roundtrip.2 "flash_attn" (by decide)

/-- C4: under the data-model invariant `numHeads % numKVHeads = 0` (with
at least one kv head, since Python's `%` needs a nonzero divisor),
construction either succeeds or fails with one of the named construction
errors — block-sparse `UnsupportedFeature`, sliding-window
`UnsupportedFeature`, or `UnsupportedHeadSize` — never with the assert or
a division error. -/
theorem construct_error_taxonomy (num_heads head_size : Nat) (scale : ℚ)
    (num_kv_heads : Nat) (alibi_slopes : Option (List ℚ))
    (sliding_window : Option Nat) (blocksparse_params : Option Unit)
    (logits_soft_cap : Option ℚ)
    (hkv : 0 < num_kv_heads) (hdiv : num_heads % num_kv_heads = 0) :
    (∃ impl, construct num_heads head_size scale num_kv_heads alibi_slopes
        sliding_window blocksparse_params logits_soft_cap = .ok impl) ∨
      construct num_heads head_size scale num_kv_heads alibi_slopes
          sliding_window blocksparse_params logits_soft_cap =
        .error .unsupportedFeatureBlockSparse ∨
      construct num_heads head_size scale num_kv_heads alibi_slopes
          sliding_window blocksparse_params logits_soft_cap =
        .error .unsupportedFeatureSlidingWindow ∨
      construct num_heads head_size scale num_kv_heads alibi_slopes
          sliding_window blocksparse_params logits_soft_cap =
        .error (.unsupportedHeadSize head_size get_supported_head_sizes) := by
  have hkv' : num_kv_heads ≠ 0 := Nat.pos_iff_ne_zero.mp hkv
  rcases blocksparse_params with _ | u <;>
    rcases sliding_window with _ | w <;>
      by_cases hh : head_size ∈ get_supported_head_sizes <;>
        simp [construct, hkv', hdiv, hh]

/-- Witness for C4 at a concrete valid config (head size 48, which is
unsupported, still lands in the named-error taxonomy). -/
theorem construct_error_taxonomy_witness :
    (0 < 8 ∧ 8 % 8 = 0) ∧
      ((∃ impl, construct 8 48 1 8 none none none none = .ok impl) ∨
        construct 8 48 1 8 none none none none =
          .error .unsupportedFeatureBlockSparse ∨
        construct 8 48 1 8 none none none none =
          .error .unsupportedFeatureSlidingWindow ∨
        construct 8 48 1 8 none none none none =
          .error (.unsupportedHeadSize 48 get_supported_head_sizes)) :=
  ⟨⟨by decide, by decide⟩,
    construct_error_taxonomy 8 48 1 8 none none none none (by decide)
      (by decide)⟩

/-- C5: with no block-sparse parameter, no sliding window and a valid
head-count configuration, construction fails with `UnsupportedHeadSize` —
carrying the offending size and the supported set — exactly when the head
size is outside {32, 64, 96, 128, 160, 192, 224, 256}. -/
theorem construct_head_size_iff (num_heads head_size : Nat) (scale : ℚ)
    (num_kv_heads : Nat) (alibi_slopes : Option (List ℚ))
    (logits_soft_cap : Option ℚ)
    (hkv : 0 < num_kv_heads) (hdiv : num_heads % num_kv_heads = 0) :
    construct num_heads head_size scale num_kv_heads alibi_slopes none none
          logits_soft_cap =
        .error (.unsupportedHeadSize head_size get_supported_head_sizes) ↔
      head_size ∉ get_supported_head_sizes := by
  have hkv' : num_kv_heads ≠ 0 := Nat.pos_iff_ne_zero.mp hkv
  by_cases hh : head_size ∈ get_supported_head_sizes <;>
    simp [construct, hkv', hdiv, hh]

/-- Witness for C5: head size 48 with 8 heads and 8 kv heads fails with
`UnsupportedHeadSize` naming 48 and the supported set. -/
theorem construct_head_size_iff_witness :
    construct 8 48 1 8 none none none none =
      .error (.unsupportedHeadSize 48 get_supported_head_sizes) :=
  (construct_head_size_iff 8 48 1 8 none none (by decide) (by decide)).mpr
    (by decide)

/-- C8: on a successful construction (no sliding window, supported head
size, valid head counts), an absent `logits_soft_cap` is normalized to the
kernel sentinel 0 while a present value is kept unchanged
(`Option.getD`), the absent sliding window becomes the pair (-1, -1), and
the forward call passes exactly these values to the kernel. -/
theorem construct_normalizes_sentinels (num_heads head_size : Nat)
    (scale : ℚ) (num_kv_heads : Nat) (alibi_slopes : Option (List ℚ))
    (logits_soft_cap : Option ℚ)
    (hkv : 0 < num_kv_heads) (hdiv : num_heads % num_kv_heads = 0)
    (hhs : head_size ∈ get_supported_head_sizes) :
    ∃ impl : EncodeOnlyFlashAttentionImpl,
      construct num_heads head_size scale num_kv_heads alibi_slopes none
          none logits_soft_cap = .ok impl ∧
      impl.logits_soft_cap = logits_soft_cap.getD 0 ∧
      impl.sliding_window = (-1, -1) ∧
      ∀ (query key value : PackedTensor)
        (md : EncodeOnlyFlashAttentionMetadata),
        ∃ r : ForwardResult,
          impl.forward query key value md 1 1 .ENCODER = .ok r ∧
          r.kernel_call.softcap = logits_soft_cap.getD 0 ∧
          r.kernel_call.window_size = (-1, -1) := by
  refine ⟨{ num_heads := num_heads, head_size := head_size, scale := scale,
            num_kv_heads := num_kv_heads, alibi_slopes := alibi_slopes,
            sliding_window := (-1, -1),
            logits_soft_cap := logits_soft_cap.getD 0,
            num_queries_per_kv := num_heads / num_kv_heads }, ?_, rfl, rfl, ?_⟩
  · have hkv' : num_kv_heads ≠ 0 := Nat.pos_iff_ne_zero.mp hkv
    rcases logits_soft_cap with _ | c <;> simp [construct, hkv', hdiv, hhs]
  · intro query key value md
    exact ⟨_, rfl, rfl, rfl⟩

/-- Witness for C8: constructing with 8 heads, head size 64, no soft cap
and no sliding window yields an implementation whose kernel sentinels are
0 and (-1, -1). -/
theorem construct_normalizes_sentinels_witness :
    (0 < 8 ∧ 8 % 8 = 0 ∧ 64 ∈ get_supported_head_sizes) ∧
      ∃ impl : EncodeOnlyFlashAttentionImpl,
        construct 8 64 1 8 none none none none = .ok impl ∧
        impl.logits_soft_cap = (none : Option ℚ).getD 0 ∧
        impl.sliding_window = (-1, -1) ∧
        ∀ (query key value : PackedTensor)
          (md : EncodeOnlyFlashAttentionMetadata),
          ∃ r : ForwardResult,
            impl.forward query key value md 1 1 .ENCODER = .ok r ∧
            r.kernel_call.softcap = (none : Option ℚ).getD 0 ∧
            r.kernel_call.window_size = (-1, -1) :=
  ⟨⟨by decide, by decide, by decide⟩,
    construct_normalizes_sentinels 8 64 1 8 none none (by decide) (by decide)
      (by decide)⟩

/-- C6: a forward call with any mode other than ENCODER fails with the
not-implemented (unsupported mode) error, for every implementation state,
every tensor, every metadata and any scales. -/
theorem forward_rejects_non_encoder (self : EncodeOnlyFlashAttentionImpl)
    (query key value : PackedTensor)
    (md : EncodeOnlyFlashAttentionMetadata) (k_scale v_scale : ℚ)
    (mode : AttentionType) (h : mode ≠ .ENCODER) :
    self.forward query key value md k_scale v_scale mode =
      .error (.unsupportedMode mode) := by
  unfold EncodeOnlyFlashAttentionImpl.forward
  simp [h]

/-- Witness for C6: DECODER_SELF mode is rejected on a concretely
constructed implementation. -/
theorem forward_rejects_non_encoder_witness :
    AttentionType.DECODER_SELF ≠ AttentionType.ENCODER ∧
      EncodeOnlyFlashAttentionImpl.forward
        { num_heads := 4, head_size := 64, scale := 1, num_kv_heads := 4,
          alibi_slopes := none, sliding_window := (-1, -1),
          logits_soft_cap := 0, num_queries_per_kv := 1 }
        ⟨10, 256⟩ ⟨10, 256⟩ ⟨10, 256⟩ ⟨[0, 10], 10⟩ 1 1 .DECODER_SELF =
        .error (.unsupportedMode .DECODER_SELF) :=
  ⟨by decide,
    forward_rejects_non_encoder _ ⟨10, 256⟩ ⟨10, 256⟩ ⟨10, 256⟩ ⟨[0, 10], 10⟩
      1 1 .DECODER_SELF (by decide)⟩

/-- C7: in ENCODER mode a forward call fails with the quantization error
whenever `k_scale` or `v_scale` differs from 1, and with both scales equal
to 1 the check passes and the kernel is invoked (the call returns a kernel
invocation). -/
theorem forward_quantization_check (self : EncodeOnlyFlashAttentionImpl)
    (query key value : PackedTensor)
    (md : EncodeOnlyFlashAttentionMetadata) (k_scale v_scale : ℚ) :
    (k_scale ≠ 1 ∨ v_scale ≠ 1 →
        self.forward query key value md k_scale v_scale .ENCODER =
          .error .unsupportedQuantization) ∧
      ∃ r : ForwardResult,
        self.forward query key value md 1 1 .ENCODER = .ok r := by
  constructor
  · intro h
    unfold EncodeOnlyFlashAttentionImpl.forward
    have : ¬ (k_scale = 1 ∧ v_scale = 1) := by tauto
    simp [this]
  · exact ⟨_, rfl⟩

/-- Witness for C7: `k_scale = 2` is rejected on a concretely constructed
implementation. -/
theorem forward_quantization_check_witness :
    EncodeOnlyFlashAttentionImpl.forward
      { num_heads := 4, head_size := 64, scale := 1, num_kv_heads := 4,
        alibi_slopes := none, sliding_window := (-1, -1),
        logits_soft_cap := 0, num_queries_per_kv := 1 }
      ⟨10, 256⟩ ⟨10, 256⟩ ⟨10, 256⟩ ⟨[0, 10], 10⟩ 2 1 .ENCODER =
      .error .unsupportedQuantization :=
  (forward_quantization_check _ ⟨10, 256⟩ ⟨10, 256⟩ ⟨10, 256⟩ ⟨[0, 10], 10⟩
      2 1).1 (by norm_num)

/-- Element `i` of `scanl (+) a l` equals `a` plus the sum of the first
`i` elements of `l`. -/
theorem scanl_add_getD (l : List Nat) (a i : Nat) (h : i ≤ l.length) :
    (l.scanl (· + ·) a).getD i 0 = a + (l.take i).sum := by
  induction l generalizing a i with
  | nil =>
    have hi : i = 0 := Nat.le_zero.mp h
    subst hi
    simp [List.scanl_nil]
  | cons x xs ih =>
    cases i with
    | zero => simp [List.scanl_cons]
    | succ j =>
      have hj : j ≤ xs.length := by simpa using h
      simp only [List.scanl_cons, List.singleton_append, List.getD_cons_succ,
        List.take_succ_cons, List.sum_cons]
      rw [ih (a + x) j hj]
      omega

/-- Every element of `l` is bounded by `l.foldr max 0`. -/
theorem foldr_max_le (l : List Nat) : ∀ x ∈ l, x ≤ l.foldr max 0 := by
  induction l with
  | nil => intro x hx; simp at hx
  | cons y ys ih =>
    intro x hx
    rcases List.mem_cons.mp hx with rfl | h
    · exact le_max_left _ _
    · exact le_trans (ih x h) (le_max_right _ _)

/-- On a nonempty list, `l.foldr max 0` is attained by some element. -/
theorem foldr_max_mem (l : List Nat) (h : l ≠ []) : l.foldr max 0 ∈ l := by
  induction l with
  | nil => exact absurd rfl h
  | cons y ys ih =>
    rcases eq_or_ne ys [] with rfl | hys
    · simp
    · rcases le_total y (ys.foldr max 0) with hle | hle
      · rw [List.foldr_cons, max_eq_right hle]
        exact List.mem_cons_of_mem _ (ih hys)
      · rw [List.foldr_cons, max_eq_left hle]
        exact List.mem_cons_self _ _

/-- C9: for every list of per-request token lengths, `build` returns
start offsets that are the prefix sums starting at 0 (one more entry than
there are sequences, entry `i` being the sum of the first `i` lengths)
and a `max_seq_len` that bounds every input length, is attained on
nonempty input and is 0 on empty input; concretely `build [3, 5, 2]`
yields offsets [0, 3, 8, 10] with max length 5 and `build []` yields
offsets [0] with max length 0. -/
theorem build_offsets_and_max (seq_lens : List Nat) :
    (build seq_lens).seq_start_loc.length = seq_lens.length + 1 ∧
    (∀ i : Nat, i ≤ seq_lens.length →
      (build seq_lens).seq_start_loc.getD i 0 = (seq_lens.take i).sum) ∧
    (∀ x ∈ seq_lens, x ≤ (build seq_lens).max_seq_len) ∧
    (seq_lens ≠ [] → (build seq_lens).max_seq_len ∈ seq_lens) ∧
    (seq_lens = [] → (build seq_lens).max_seq_len = 0) ∧
    build [3, 5, 2] = ⟨[0, 3, 8, 10], 5⟩ ∧
    build [] = ⟨[0], 0⟩ := by
  refine ⟨?_, ?_, ?_, ?_, ?_, ?_, ?_⟩
  · simpa [build] using List.length_scanl 0 seq_lens
  · intro i hi
    simpa [build] using scanl_add_getD seq_lens 0 i hi
  · exact foldr_max_le seq_lens
  · exact foldr_max_mem seq_lens
  · intro h
    subst h
    rfl
  · rfl
  · rfl

/-- Witness for C9 at the concrete inputs of the claim: offset 2 of
`build [3, 5, 2]` is the sum of the first two lengths, the max length is
attained, and the empty batch has max length 0. -/
theorem build_offsets_and_max_witness :
    (build [3, 5, 2]).seq_start_loc.getD 2 0 = ([3, 5, 2].take 2).sum ∧
    5 ≤ (build [3, 5, 2]).max_seq_len ∧
    (build [3, 5, 2]).max_seq_len ∈ [3, 5, 2] ∧
    (build ([] : List Nat)).max_seq_len = 0 :=
  ⟨(build_offsets_and_max [3, 5, 2]).2.1 2 (by decide),
   (build_offsets_and_max [3, 5, 2]).2.2.1 5 (by decide),
   (build_offsets_and_max [3, 5, 2]).2.2.2.1 (by decide),
   (build_offsets_and_max []).2.2.2.2.1 rfl⟩
